import Mathlib

/-!
Shallow embedding of the ChatBot front end.

Source `src/unnamed/part_000` is an axios-based API facade module exporting
`chatApi` and `indexApi`; source `src/unnamed/part_001` is a standalone HTML
page whose script starts a batch-test job and polls its status every five
seconds.  Pure request construction is embedded as Lean functions producing
`Request` values; the try/catch result handling of each facade method is
embedded as a function from the HTTP outcome (`Except ε (Response a)`) to the
produced console-error log and returned/thrown value; the page script is
embedded as a state machine on `UIState` driven by fetch outcomes.
-/

set_option autoImplicit false

/-- JavaScript primitive values appearing in request payloads and query
parameters.  JS objects are modelled as association lists
`List (String × JVal)` in insertion order; as in JS, a later entry for the
same key overrides an earlier one (see `jsGet`). -/
inductive JVal where
  | null : JVal
  | bool : Bool → JVal
  | num : Rat → JVal
  | str : String → JVal
  deriving DecidableEq, Repr

/-- JS truthiness of a nullable string: `null` and the empty string are
falsy, every other string is truthy. -/
def jsTruthyStr : Option String → Bool
  | none => false
  | some s => s != ""

/-- JS `a || d` for a nullable string `a`: yields `d` when `a` is falsy. -/
def jsOrStr : Option String → String → String
  | none, d => d
  | some s, d => if s = "" then d else s

/-- JS truthiness of a nullable number: `null` and `0` are falsy. -/
def jsTruthyNum : Option Rat → Bool
  | none => false
  | some q => q != 0

/-- JS `a || d` for a nullable number `a`: yields `d` when `a` is falsy. -/
def jsOrNum : Option Rat → Rat → Rat
  | none, d => d
  | some q, d => if q = 0 then d else q

/-- Property lookup on a JS object modelled as an association list: the
last entry for a key wins, matching JS assignment/spread semantics. -/
def jsGet (fields : List (String × JVal)) (k : String) : Option JVal :=
  (fields.reverse.find? (fun p => p.1 == k)).map (fun p => p.2)

/-- Whether a JS object (as an association list) has an own property `k`. -/
def hasKey (fields : List (String × JVal)) (k : String) : Bool :=
  fields.any (fun p => p.1 == k)

/-- JS `s.includes(pat)`: substring containment. -/
def jsIncludes (s pat : String) : Bool :=
  s.toList.tails.any (fun t => pat.toList.isPrefixOf t)

/-- Display of a JS number inside a template literal.  The exact JS
float-to-string algorithm is abstracted to `toString` on `Rat`; no claim
depends on the rendered digits. -/
def jsNumDisplay (q : Rat) : String := toString q

/-- Model of `Number.prototype.toFixed(2)`.  The exact rounding and digit
rendering are abstracted; no claim depends on the rendered digits. -/
def jsToFixed2 (q : Rat) : String := toString q

/-- Template-literal interpolation of a possibly-undefined string
(`undefined` renders as the text "undefined"). -/
def jsOptDisplay : Option String → String
  | some s => s
  | none => "undefined"

/-- The axios client configuration produced by `axios.create` in
part_000 lines 7-12. -/
structure Client where
  baseURL : String
  headers : List (String × String)
  deriving DecidableEq, Repr

/-- part_000 line 5: `process.env.REACT_APP_API_URL || 'http://localhost:8005'`.
The environment variable is `env` (absent or a string; an empty string is
falsy and falls back to the default). -/
def API_URL (env : Option String) : String :=
  jsOrStr env "http://localhost:8005"

/-- part_000 lines 7-12: the single axios instance used by every facade
method, with the configurable base URL and a default JSON content type. -/
def api (env : Option String) : Client :=
  { baseURL := API_URL env
    headers := [("Content-Type", "application/json")] }

/-- HTTP request methods used by the facades. -/
inductive HttpMethod where
  | get : HttpMethod
  | post : HttpMethod
  | delete : HttpMethod
  deriving DecidableEq, Repr

/-- Request bodies sent by the facades: a JSON object or multipart form
data (entries are field name / file reference pairs). -/
inductive Body where
  | json : List (String × JVal) → Body
  | form : List (String × String) → Body
  deriving DecidableEq, Repr

/-- An HTTP request as issued through the axios client: the client it goes
through, the method, the url string passed to axios (it may embed a query
string, as in `startBatchTest`), the axios `params` option, the optional
body, and per-request header overrides. -/
structure Request where
  client : Client
  method : HttpMethod
  url : String
  params : List (String × JVal)
  body : Option Body
  headers : List (String × String)
  deriving DecidableEq, Repr

/-- An HTTP response as seen by the facade methods; only its `data` field
is ever read.  `a` is the (opaque) type of the response data. -/
structure Response (a : Type) where
  data : a

/-- The meaning of one facade method call: the request it issues and, since
each method body is a single try/catch around the awaited call, a function
from the call's outcome to the pair (console.error log entries, returned
value or re-thrown error).  `e` is the type of thrown error objects. -/
structure MethodCall (e a b : Type) where
  request : Request
  run : Except e (Response a) → List (String × e) × Except e b

/-- The JSON body of a request, when it has one (empty otherwise). -/
def requestJsonBody (r : Request) : List (String × JVal) :=
  match r.body with
  | some (Body.json fields) => fields
  | _ => []

/-- part_000 lines 26-31 of `sendMessage`: map the UI response mode to the
backend mode parameter. -/
def modeOf (responseMode : String) : String :=
  if responseMode = "standard" then "no_rag"
  else if responseMode = "compare" then "compare"
  else "rag"

/-- part_000 lines 33-44 of `sendMessage`: the `/chat` payload, including
`system_prompt` only when `systemPrompt` is truthy. -/
def sendMessagePayload (message session_id mode promptStyle : String)
    (systemPrompt : Option String) : List (String × JVal) :=
  let payload := [("message", JVal.str message),
                  ("session_id", JVal.str session_id),
                  ("mode", JVal.str mode),
                  ("prompt_style", JVal.str promptStyle)]
  match systemPrompt with
  | some sp => if sp ≠ "" then payload ++ [("system_prompt", JVal.str sp)] else payload
  | none => payload

namespace chatApi

/-- chatApi.sendMessage, part_000 lines 15-57.  `randSuffix` stands for the
random suffix produced by Math.random().toString(36).substring(2, 15); the
informational console.log calls (lines 20-23) are not modelled.  On success
the method returns the response data spread together with the client-side
session id (`session_id` last, so it overrides any backend field of that
name); on error it logs and re-throws the same error. -/
def sendMessage {e : Type} (env : Option String) (message : String)
    (responseMode : String) (sessionId : Option String)
    (systemPrompt : Option String) (promptStyle : String) (randSuffix : String) :
    MethodCall e (List (String × JVal)) (List (String × JVal)) :=
  let session_id := jsOrStr sessionId ("session_" ++ randSuffix)
  let mode := modeOf responseMode
  let payload := sendMessagePayload message session_id mode promptStyle systemPrompt
  { request := { client := api env, method := HttpMethod.post, url := "/chat",
                 params := [], body := some (Body.json payload), headers := [] }
    run := fun outcome =>
      match outcome with
      | Except.ok response =>
          ([], Except.ok (response.data ++ [("session_id", JVal.str session_id)]))
      | Except.error err => ([("Error sending message:", err)], Except.error err) }

end chatApi

/-- The possible shapes of the `testData` argument of `runTests`: JS null,
a string, an object (with its optional `prompt` and `expected_result`
fields), or any other value (number, boolean, ...). -/
inductive TestData where
  | null : TestData
  | str : String → TestData
  | obj : Option String → Option String → TestData
  | other : TestData
  deriving DecidableEq, Repr

/-- part_000 lines 86-89 of `runTests`: the default-test request
`api.post('/test/single')`, issued with no body. -/
def defaultTestRequest (env : Option String) : Request :=
  { client := api env, method := HttpMethod.post, url := "/test/single",
    params := [], body := none, headers := [] }

/-- part_000 lines 59-89: which request `runTests` issues for each shape of
`testData`.  Case 1 (object with truthy `prompt`) posts `/test/single` with
the prompt and `expected_result || ""`; case 2 (string) posts
`/test/single` with `test_file` unless the string contains ".csv", in which
case it posts `/chat/batch-test` with query param similarity_threshold 0.7;
everything else falls through to the no-body default test. -/
def runTestsRequest (env : Option String) (testData : TestData) : Request :=
  match testData with
  | TestData.obj (some p) expected =>
      if p ≠ "" then
        { client := api env, method := HttpMethod.post, url := "/test/single",
          params := [],
          body := some (Body.json
            [("prompt", JVal.str p),
             ("expected_result", JVal.str (jsOrStr expected ""))]),
          headers := [] }
      else defaultTestRequest env
  | TestData.str s =>
      if jsIncludes s ".csv" = false then
        { client := api env, method := HttpMethod.post, url := "/test/single",
          params := [],
          body := some (Body.json [("test_file", JVal.str s)]), headers := [] }
      else
        { client := api env, method := HttpMethod.post, url := "/chat/batch-test",
          params := [("similarity_threshold", JVal.num (7/10))],
          body := some (Body.json [("test_file", JVal.str s)]), headers := [] }
  | _ => defaultTestRequest env

namespace chatApi

/-- chatApi.runTests, part_000 lines 59-94.  Every branch returns
`response.data` unchanged; the catch logs and re-throws the same error. -/
def runTests {e a : Type} (env : Option String) (testData : TestData) :
    MethodCall e a a :=
  { request := runTestsRequest env testData
    run := fun outcome =>
      match outcome with
      | Except.ok response => ([], Except.ok response.data)
      | Except.error err => ([("Error running chat tests:", err)], Except.error err) }

/-- Rendering of a JS number into the `startBatchTest` url template.  The
exact float formatting is abstracted; no claim depends on it. -/
def thresholdText (q : Rat) : String := toString q

/-- chatApi.startBatchTest, part_000 lines 97-115: posts multipart form
data to `/test/batch/start` with the similarity threshold embedded in the
url's query string and a per-request multipart content type. -/
def startBatchTest {e a : Type} (env : Option String) (file : String)
    (similarityThreshold : Rat) : MethodCall e a a :=
  { request := { client := api env, method := HttpMethod.post,
                 url := "/test/batch/start?similarity_threshold=" ++
                        thresholdText similarityThreshold,
                 params := [], body := some (Body.form [("csv_file", file)]),
                 headers := [("Content-Type", "multipart/form-data")] }
    run := fun outcome =>
      match outcome with
      | Except.ok response => ([], Except.ok response.data)
      | Except.error err => ([("Error starting batch test:", err)], Except.error err) }

/-- chatApi.getTestJobStatus, part_000 lines 117-125. -/
def getTestJobStatus {e a : Type} (env : Option String) (jobId : String) :
    MethodCall e a a :=
  { request := { client := api env, method := HttpMethod.get,
                 url := "/test/jobs/" ++ jobId, params := [], body := none,
                 headers := [] }
    run := fun outcome =>
      match outcome with
      | Except.ok response => ([], Except.ok response.data)
      | Except.error err => ([("Error getting test job status:", err)], Except.error err) }

/-- chatApi.getAllTestJobs, part_000 lines 127-135. -/
def getAllTestJobs {e a : Type} (env : Option String) : MethodCall e a a :=
  { request := { client := api env, method := HttpMethod.get, url := "/test/jobs",
                 params := [], body := none, headers := [] }
    run := fun outcome =>
      match outcome with
      | Except.ok response => ([], Except.ok response.data)
      | Except.error err => ([("Error listing test jobs:", err)], Except.error err) }

end chatApi

namespace indexApi

/-- indexApi.clearCache, part_000 lines 140-149: DELETE `/chat/cache` with
the `older_than_days` query param present exactly when `olderThanDays` is
truthy (so 0 and null both yield no params). -/
def clearCache {e a : Type} (env : Option String) (olderThanDays : Option Rat) :
    MethodCall e a a :=
  let params := if jsTruthyNum olderThanDays then
      [("older_than_days", JVal.num (jsOrNum olderThanDays 0))]
    else []
  { request := { client := api env, method := HttpMethod.delete,
                 url := "/chat/cache", params := params, body := none,
                 headers := [] }
    run := fun outcome =>
      match outcome with
      | Except.ok response => ([], Except.ok response.data)
      | Except.error err => ([("Error clearing cache:", err)], Except.error err) }

/-- indexApi.getCacheStats, part_000 lines 151-159. -/
def getCacheStats {e a : Type} (env : Option String) : MethodCall e a a :=
  { request := { client := api env, method := HttpMethod.get,
                 url := "/chat/cache/stats", params := [], body := none,
                 headers := [] }
    run := fun outcome =>
      match outcome with
      | Except.ok response => ([], Except.ok response.data)
      | Except.error err => ([("Error fetching cache stats:", err)], Except.error err) }

/-- indexApi.indexGoogleDrive, part_000 lines 162-176: posts an empty JSON
body to `/index/google-drive` with query params; `folder_id` is included
only when truthy, while `recursive` and `enhanced_slides` always pass the
`!== undefined` guard because the parameters have defaults. -/
def indexGoogleDrive {e a : Type} (env : Option String) (folderId : Option String)
    (recursive enhancedSlides : Bool) : MethodCall e a a :=
  let params :=
    (if jsTruthyStr folderId then [("folder_id", JVal.str (jsOrStr folderId ""))]
     else []) ++
    [("recursive", JVal.bool recursive), ("enhanced_slides", JVal.bool enhancedSlides)]
  { request := { client := api env, method := HttpMethod.post,
                 url := "/index/google-drive", params := params,
                 body := some (Body.json []), headers := [] }
    run := fun outcome =>
      match outcome with
      | Except.ok response => ([], Except.ok response.data)
      | Except.error err => ([("Error indexing Google Drive:", err)], Except.error err) }

/-- indexApi.listGoogleDriveFiles, part_000 lines 178-186. -/
def listGoogleDriveFiles {e a : Type} (env : Option String) : MethodCall e a a :=
  { request := { client := api env, method := HttpMethod.get,
                 url := "/index/google-drive/files", params := [], body := none,
                 headers := [] }
    run := fun outcome =>
      match outcome with
      | Except.ok response => ([], Except.ok response.data)
      | Except.error err => ([("Error listing Google Drive files:", err)], Except.error err) }

/-- indexApi.indexShopify, part_000 lines 189-198: posts `store` (possibly
JS null) to `/index/`. -/
def indexShopify {e a : Type} (env : Option String) (shopifyDomain : Option String) :
    MethodCall e a a :=
  let store := match shopifyDomain with
    | some s => JVal.str s
    | none => JVal.null
  { request := { client := api env, method := HttpMethod.post, url := "/index/",
                 params := [], body := some (Body.json [("store", store)]),
                 headers := [] }
    run := fun outcome =>
      match outcome with
      | Except.ok response => ([], Except.ok response.data)
      | Except.error err => ([("Error indexing Shopify:", err)], Except.error err) }

/-- indexApi.listShopifyContent, part_000 lines 200-209. -/
def listShopifyContent {e a : Type} (env : Option String) : MethodCall e a a :=
  { request := { client := api env, method := HttpMethod.get, url := "/index/",
                 params := [], body := none, headers := [] }
    run := fun outcome =>
      match outcome with
      | Except.ok response => ([], Except.ok response.data)
      | Except.error err => ([("Error listing Shopify content:", err)], Except.error err) }

/-- indexApi.deleteDocument, part_000 lines 212-220. -/
def deleteDocument {e a : Type} (env : Option String) (documentId : String) :
    MethodCall e a a :=
  { request := { client := api env, method := HttpMethod.delete,
                 url := "/index/document/" ++ documentId, params := [],
                 body := none, headers := [] }
    run := fun outcome =>
      match outcome with
      | Except.ok response => ([], Except.ok response.data)
      | Except.error err => ([("Error deleting document:", err)], Except.error err) }

/-- indexApi.healthCheck, part_000 lines 222-230. -/
def healthCheck {e a : Type} (env : Option String) : MethodCall e a a :=
  { request := { client := api env, method := HttpMethod.get, url := "/health",
                 params := [], body := none, headers := [] }
    run := fun outcome =>
      match outcome with
      | Except.ok response => ([], Except.ok response.data)
      | Except.error err => ([("Health check failed:", err)], Except.error err) }

end indexApi

/-- The mutable state of the test-runner page (part_001): the tracked job
id and poll interval variables (lines 103-104) plus the DOM pieces the
script writes.  `pollInterval` is `some periodMs` while an interval is
scheduled and `none` after `clearInterval` (or before any `setInterval`);
`logs` collects console.error entries as (label, message) pairs. -/
structure UIState where
  jobId : Option String
  pollInterval : Option Nat
  startDisabled : Bool
  progressVisible : Bool
  progressWidth : String
  statusText : String
  resultHtml : String
  logs : List (String × String)
  deriving DecidableEq, Repr

/-- The `result` object inside a completed job-status payload (part_001
lines 183-189); all fields are optional. -/
structure BatchResult where
  total_tests : Option Rat
  passed : Option Rat
  failed : Option Rat
  pass_rate : Option Rat
  deriving DecidableEq, Repr

/-- The job-status payload returned by `/test/jobs/{id}` as the script
reads it; every field may be absent.  `errorMessage` models the optional
chain `jobData.error?.message` (part_001 line 199). -/
structure JobData where
  progress : Option Rat
  status : Option String
  message : Option String
  result : Option BatchResult
  duration_seconds : Option Rat
  errorMessage : Option String
  deriving DecidableEq, Repr

/-- The results block rendered on completion (part_001 lines 183-193).
The template literal's whitespace is not reproduced; falsy fields fall back
to 0 (or "?" for the duration) exactly as the `||` defaults do. -/
def completedHtml (j : JobData) : String :=
  let result := j.result.getD { total_tests := none, passed := none,
                                failed := none, pass_rate := none }
  "<h3>Test Results</h3>" ++
  "<p>Total tests: " ++ jsNumDisplay (jsOrNum result.total_tests 0) ++ "</p>" ++
  "<p>Passed: " ++ jsNumDisplay (jsOrNum result.passed 0) ++ "</p>" ++
  "<p>Failed: " ++ jsNumDisplay (jsOrNum result.failed 0) ++ "</p>" ++
  "<p>Pass rate: " ++ (match result.pass_rate with
    | some q => jsToFixed2 q
    | none => "0") ++ "%</p>" ++
  "<p>Duration: " ++ (match j.duration_seconds with
    | some q => jsToFixed2 q
    | none => "?") ++ " seconds</p>"

/-- The outcome of one `fetch` of `/test/jobs/{id}` inside
`checkJobStatus`: either the fetch (or its json decoding) threw with the
given message, or an HTTP response arrived with the given `ok` flag,
status, status text and decoded body. -/
inductive PollOutcome where
  | fetchError : String → PollOutcome
  | httpResponse : Bool → Nat → String → JobData → PollOutcome
  deriving DecidableEq, Repr

/-- part_001 lines 157-205, `checkJobStatus`: returns early when `jobId` is
falsy; a thrown error (failed fetch or, via `throw`, a non-ok response) is
logged and shown in the status element and nothing else changes; an ok
response updates the progress bar (when `progress` is defined) and the
status line, then clears the interval, re-enables the start button and
renders results exactly when the status string is "completed" or "failed". -/
def checkJobStatus (s : UIState) (outcome : PollOutcome) : UIState :=
  if jsTruthyStr s.jobId = false then s
  else
    match outcome with
    | PollOutcome.fetchError msg =>
        { s with logs := s.logs ++ [("Error checking job status:", msg)],
                 statusText := "Error checking status: " ++ msg }
    | PollOutcome.httpResponse ok status statusText jobData =>
        if ok = false then
          let msg := "Error checking job: " ++ toString status ++ " " ++ statusText
          { s with logs := s.logs ++ [("Error checking job status:", msg)],
                   statusText := "Error checking status: " ++ msg }
        else
          let s1 := match jobData.progress with
            | some p => { s with progressWidth := jsNumDisplay p ++ "%" }
            | none => s
          let s2 := { s1 with statusText :=
            ("Status: " ++ jsOptDisplay jobData.status ++ " - " ++
              jsOrStr jobData.message "") }
          if jobData.status = some "completed" then
            { s2 with pollInterval := none, startDisabled := false,
                      resultHtml := completedHtml jobData }
          else if jobData.status = some "failed" then
            { s2 with pollInterval := none, startDisabled := false,
                      resultHtml := "<p>Job failed: " ++
                        jsOrStr jobData.errorMessage "Unknown error" ++ "</p>" }
          else s2

/-- The outcome of the `fetch` of `/test/batch/start` inside the start
button's click handler: a thrown error, or an HTTP response with its `ok`
flag, status, status text and the decoded body's `job_id` field. -/
inductive StartOutcome where
  | fetchError : String → StartOutcome
  | httpResponse : Bool → Nat → String → Option String → StartOutcome
  deriving DecidableEq, Repr

/-- part_001 lines 107-154, the start button's click handler: with no file
selected it alerts and returns; otherwise it disables the button, resets
the progress UI, and starts the batch job.  On success it records the job
id and schedules `checkJobStatus` every 5000 ms; a thrown error (failed
fetch or non-ok response) is logged, shown, and re-enables the button.
The fetch itself is abstracted into `outcome`; the threshold read from the
input only feeds that fetch's url and is not part of the state. -/
def startButtonClick (s : UIState) (files : List String)
    (outcome : StartOutcome) : UIState :=
  if files.isEmpty then s
  else
    let s1 := { s with startDisabled := true, progressVisible := true,
                       progressWidth := "0%", statusText := "Starting job...",
                       resultHtml := "<p>Job starting...</p>" }
    match outcome with
    | StartOutcome.fetchError msg =>
        { s1 with logs := s1.logs ++ [("Error starting job:", msg)],
                  statusText := "Error: " ++ msg,
                  resultHtml := "<p>Error: " ++ msg ++ "</p>",
                  startDisabled := false }
    | StartOutcome.httpResponse ok status statusText job_id =>
        if ok = false then
          let msg := "Error starting job: " ++ toString status ++ " " ++ statusText
          { s1 with logs := s1.logs ++ [("Error starting job:", msg)],
                    statusText := "Error: " ++ msg,
                    resultHtml := "<p>Error: " ++ msg ++ "</p>",
                    startDisabled := false }
        else
          { s1 with jobId := job_id,
                    statusText := "Job started with ID: " ++ jsOptDisplay job_id,
                    resultHtml := "<p>Job started with ID: " ++
                      jsOptDisplay job_id ++ "</p>",
                    pollInterval := some 5000 }

/-! Helper lemmas shared by several claim theorems. -/

theorem string_append_assoc (x y z : String) : x ++ y ++ z = x ++ (y ++ z) := by
  apply String.ext
  simp [String.data_append]

theorem jsGet_append (fields : List (String × JVal)) (k0 k : String) (v : JVal) :
    jsGet (fields ++ [(k0, v)]) k = if k0 = k then some v else jsGet fields k := by
  unfold jsGet
  rw [List.reverse_append]
  by_cases h : k0 = k
  · simp [List.find?, h]
  · have hb : (k0 == k) = false := by simp [h]
    simp [List.find?, hb, h]

/-- Claim C2: every facade method in chatApi and indexApi, when the
underlying HTTP call throws, logs the error (one console.error entry) and
re-throws the very same error object unmodified, with no retry and no
substitute value. -/
theorem c2_errors_rethrown (e a : Type) (err : e) (env : Option String)
    (message responseMode promptStyle randSuffix file jobId documentId : String)
    (sessionId systemPrompt folderId shopifyDomain : Option String)
    (testData : TestData) (threshold : Rat) (olderThanDays : Option Rat)
    (recursive enhancedSlides : Bool) :
    (@chatApi.sendMessage e env message responseMode sessionId systemPrompt
        promptStyle randSuffix).run (Except.error err)
      = ([("Error sending message:", err)], Except.error err) ∧
    (@chatApi.runTests e a env testData).run (Except.error err)
      = ([("Error running chat tests:", err)], Except.error err) ∧
    (@chatApi.startBatchTest e a env file threshold).run (Except.error err)
      = ([("Error starting batch test:", err)], Except.error err) ∧
    (@chatApi.getTestJobStatus e a env jobId).run (Except.error err)
      = ([("Error getting test job status:", err)], Except.error err) ∧
    (@chatApi.getAllTestJobs e a env).run (Except.error err)
      = ([("Error listing test jobs:", err)], Except.error err) ∧
    (@indexApi.clearCache e a env olderThanDays).run (Except.error err)
      = ([("Error clearing cache:", err)], Except.error err) ∧
    (@indexApi.getCacheStats e a env).run (Except.error err)
      = ([("Error fetching cache stats:", err)], Except.error err) ∧
    (@indexApi.indexGoogleDrive e a env folderId recursive enhancedSlides).run
        (Except.error err)
      = ([("Error indexing Google Drive:", err)], Except.error err) ∧
    (@indexApi.listGoogleDriveFiles e a env).run (Except.error err)
      = ([("Error listing Google Drive files:", err)], Except.error err) ∧
    (@indexApi.indexShopify e a env shopifyDomain).run (Except.error err)
      = ([("Error indexing Shopify:", err)], Except.error err) ∧
    (@indexApi.listShopifyContent e a env).run (Except.error err)
      = ([("Error listing Shopify content:", err)], Except.error err) ∧
    (@indexApi.deleteDocument e a env documentId).run (Except.error err)
      = ([("Error deleting document:", err)], Except.error err) ∧
    (@indexApi.healthCheck e a env).run (Except.error err)
      = ([("Health check failed:", err)], Except.error err) := by
  exact ⟨rfl, rfl, rfl, rfl, rfl, rfl, rfl, rfl, rfl, rfl, rfl, rfl, rfl⟩

/-- Claim C6: every request issued by the chatApi and indexApi facades goes
through the single axios client `api` (one configurable base URL, default
Content-Type application/json) and targets one of the endpoints enumerated
in the spec: /chat (POST), /test/single or /chat/batch-test (POST, from
runTests), /test/batch/start (POST, query embedded in the url),
/test/jobs/{id} and /test/jobs (GET), /chat/cache (DELETE),
/chat/cache/stats (GET), /index/google-drive and /index/google-drive/files,
/index/ (POST and GET), /index/document/{id} (DELETE), /health (GET). -/
theorem c6_endpoints (env : Option String)
    (message responseMode promptStyle randSuffix file jobId documentId : String)
    (sessionId systemPrompt folderId shopifyDomain : Option String)
    (threshold : Rat) (olderThanDays : Option Rat)
    (recursive enhancedSlides : Bool) :
    api env = { baseURL := jsOrStr env "http://localhost:8005",
                headers := [("Content-Type", "application/json")] } ∧
    ((@chatApi.sendMessage Unit env message responseMode sessionId systemPrompt
        promptStyle randSuffix).request.client = api env ∧
     (@chatApi.sendMessage Unit env message responseMode sessionId systemPrompt
        promptStyle randSuffix).request.method = HttpMethod.post ∧
     (@chatApi.sendMessage Unit env message responseMode sessionId systemPrompt
        promptStyle randSuffix).request.url = "/chat") ∧
    (∀ td : TestData,
      (@chatApi.runTests Unit Unit env td).request.client = api env ∧
      (@chatApi.runTests Unit Unit env td).request.method = HttpMethod.post ∧
      ((@chatApi.runTests Unit Unit env td).request.url = "/test/single" ∨
       (@chatApi.runTests Unit Unit env td).request.url = "/chat/batch-test")) ∧
    ((@chatApi.startBatchTest Unit Unit env file threshold).request.client = api env ∧
     (@chatApi.startBatchTest Unit Unit env file threshold).request.method
       = HttpMethod.post ∧
     ∃ q, (@chatApi.startBatchTest Unit Unit env file threshold).request.url
       = "/test/batch/start?" ++ q) ∧
    ((@chatApi.getTestJobStatus Unit Unit env jobId).request.client = api env ∧
     (@chatApi.getTestJobStatus Unit Unit env jobId).request.method = HttpMethod.get ∧
     ∃ i, (@chatApi.getTestJobStatus Unit Unit env jobId).request.url
       = "/test/jobs/" ++ i) ∧
    ((@chatApi.getAllTestJobs Unit Unit env).request.client = api env ∧
     (@chatApi.getAllTestJobs Unit Unit env).request.method = HttpMethod.get ∧
     (@chatApi.getAllTestJobs Unit Unit env).request.url = "/test/jobs") ∧
    ((@indexApi.clearCache Unit Unit env olderThanDays).request.client = api env ∧
     (@indexApi.clearCache Unit Unit env olderThanDays).request.method
       = HttpMethod.delete ∧
     (@indexApi.clearCache Unit Unit env olderThanDays).request.url = "/chat/cache") ∧
    ((@indexApi.getCacheStats Unit Unit env).request.client = api env ∧
     (@indexApi.getCacheStats Unit Unit env).request.method = HttpMethod.get ∧
     (@indexApi.getCacheStats Unit Unit env).request.url = "/chat/cache/stats") ∧
    ((@indexApi.indexGoogleDrive Unit Unit env folderId recursive
        enhancedSlides).request.client = api env ∧
     (@indexApi.indexGoogleDrive Unit Unit env folderId recursive
        enhancedSlides).request.method = HttpMethod.post ∧
     (@indexApi.indexGoogleDrive Unit Unit env folderId recursive
        enhancedSlides).request.url = "/index/google-drive") ∧
    ((@indexApi.listGoogleDriveFiles Unit Unit env).request.client = api env ∧
     (@indexApi.listGoogleDriveFiles Unit Unit env).request.method = HttpMethod.get ∧
     (@indexApi.listGoogleDriveFiles Unit Unit env).request.url
       = "/index/google-drive/files") ∧
    ((@indexApi.indexShopify Unit Unit env shopifyDomain).request.client = api env ∧
     (@indexApi.indexShopify Unit Unit env shopifyDomain).request.method
       = HttpMethod.post ∧
     (@indexApi.indexShopify Unit Unit env shopifyDomain).request.url = "/index/") ∧
    ((@indexApi.listShopifyContent Unit Unit env).request.client = api env ∧
     (@indexApi.listShopifyContent Unit Unit env).request.method = HttpMethod.get ∧
     (@indexApi.listShopifyContent Unit Unit env).request.url = "/index/") ∧
    ((@indexApi.deleteDocument Unit Unit env documentId).request.client = api env ∧
     (@indexApi.deleteDocument Unit Unit env documentId).request.method
       = HttpMethod.delete ∧
     ∃ i, (@indexApi.deleteDocument Unit Unit env documentId).request.url
       = "/index/document/" ++ i) ∧
    ((@indexApi.healthCheck Unit Unit env).request.client = api env ∧
     (@indexApi.healthCheck Unit Unit env).request.method = HttpMethod.get ∧
     (@indexApi.healthCheck Unit Unit env).request.url = "/health") := by
  refine ⟨rfl, ⟨rfl, rfl, rfl⟩, ?_, ⟨rfl, rfl,
      ⟨"similarity_threshold=" ++ chatApi.thresholdText threshold, ?_⟩⟩,
      ⟨rfl, rfl, ⟨jobId, rfl⟩⟩, ⟨rfl, rfl, rfl⟩, ⟨rfl, rfl, rfl⟩, ⟨rfl, rfl, rfl⟩,
      ⟨rfl, rfl, rfl⟩, ⟨rfl, rfl, rfl⟩, ⟨rfl, rfl, rfl⟩, ⟨rfl, rfl, rfl⟩,
      ⟨rfl, rfl, ⟨documentId, rfl⟩⟩, ⟨rfl, rfl, rfl⟩⟩
  · intro td
    cases td with
    | null => exact ⟨rfl, rfl, Or.inl rfl⟩
    | str s =>
      by_cases h : jsIncludes s ".csv" = false
      · exact ⟨by simp [chatApi.runTests, runTestsRequest, h],
          by simp [chatApi.runTests, runTestsRequest, h],
          Or.inl (by simp [chatApi.runTests, runTestsRequest, h])⟩
      · exact ⟨by simp [chatApi.runTests, runTestsRequest, h],
          by simp [chatApi.runTests, runTestsRequest, h],
          Or.inr (by simp [chatApi.runTests, runTestsRequest, h])⟩
    | obj op oe =>
      cases op with
      | none => exact ⟨rfl, rfl, Or.inl rfl⟩
      | some p =>
        by_cases hp : p = ""
        · exact ⟨by simp [chatApi.runTests, runTestsRequest, hp, defaultTestRequest],
            by simp [chatApi.runTests, runTestsRequest, hp, defaultTestRequest],
            Or.inl (by simp [chatApi.runTests, runTestsRequest, hp, defaultTestRequest])⟩
        · exact ⟨by simp [chatApi.runTests, runTestsRequest, hp],
            by simp [chatApi.runTests, runTestsRequest, hp],
            Or.inl (by simp [chatApi.runTests, runTestsRequest, hp])⟩
    | other => exact ⟨rfl, rfl, Or.inl rfl⟩
  · rw [← string_append_assoc]
    show "/test/batch/start?similarity_threshold=" ++ chatApi.thresholdText threshold
      = ("/test/batch/start?" ++ "similarity_threshold=") ++ chatApi.thresholdText threshold
    congr 1

/-- Claim C3: sendMessage maps the UI response mode totally onto the backend
mode parameter (standard to no_rag, compare to compare, anything else to
rag), posts the payload to /chat, and the payload always contains message,
session_id, mode and prompt_style, containing system_prompt exactly when a
(truthy, that is non-null non-empty) systemPrompt argument is provided. -/
theorem c3_sendMessage_mode_and_payload (env : Option String)
    (message responseMode promptStyle randSuffix session_id : String)
    (sessionId systemPrompt : Option String) :
    (@chatApi.sendMessage Unit env message responseMode sessionId systemPrompt
        promptStyle randSuffix).request.url = "/chat" ∧
    (@chatApi.sendMessage Unit env message responseMode sessionId systemPrompt
        promptStyle randSuffix).request.method = HttpMethod.post ∧
    (@chatApi.sendMessage Unit env message responseMode sessionId systemPrompt
        promptStyle randSuffix).request.body
      = some (Body.json (sendMessagePayload message
          (jsOrStr sessionId ("session_" ++ randSuffix)) (modeOf responseMode)
          promptStyle systemPrompt)) ∧
    (responseMode = "standard" → modeOf responseMode = "no_rag") ∧
    (responseMode = "compare" → modeOf responseMode = "compare") ∧
    (responseMode ≠ "standard" → responseMode ≠ "compare" →
      modeOf responseMode = "rag") ∧
    jsGet (sendMessagePayload message session_id (modeOf responseMode)
      promptStyle systemPrompt) "mode" = some (JVal.str (modeOf responseMode)) ∧
    hasKey (sendMessagePayload message session_id (modeOf responseMode)
      promptStyle systemPrompt) "message" = true ∧
    hasKey (sendMessagePayload message session_id (modeOf responseMode)
      promptStyle systemPrompt) "session_id" = true ∧
    hasKey (sendMessagePayload message session_id (modeOf responseMode)
      promptStyle systemPrompt) "mode" = true ∧
    hasKey (sendMessagePayload message session_id (modeOf responseMode)
      promptStyle systemPrompt) "prompt_style" = true ∧
    hasKey (sendMessagePayload message session_id (modeOf responseMode)
      promptStyle systemPrompt) "system_prompt" = jsTruthyStr systemPrompt := by
  refine ⟨rfl, rfl, rfl, ?_, ?_, ?_, ?_, ?_, ?_, ?_, ?_, ?_⟩
  · intro h; simp [modeOf, h]
  · intro h; simp [modeOf, h]
  · intro h1 h2; simp [modeOf, h1, h2]
  · cases systemPrompt with
    | none => simp [sendMessagePayload, jsGet, List.find?]
    | some spv =>
      by_cases h : spv = "" <;> simp [sendMessagePayload, h, jsGet, List.find?]
  · cases systemPrompt with
    | none => simp [sendMessagePayload, hasKey]
    | some spv => by_cases h : spv = "" <;> simp [sendMessagePayload, h, hasKey]
  · cases systemPrompt with
    | none => simp [sendMessagePayload, hasKey]
    | some spv => by_cases h : spv = "" <;> simp [sendMessagePayload, h, hasKey]
  · cases systemPrompt with
    | none => simp [sendMessagePayload, hasKey]
    | some spv => by_cases h : spv = "" <;> simp [sendMessagePayload, h, hasKey]
  · cases systemPrompt with
    | none => simp [sendMessagePayload, hasKey]
    | some spv => by_cases h : spv = "" <;> simp [sendMessagePayload, h, hasKey]
  · cases systemPrompt with
    | none => simp [sendMessagePayload, hasKey, jsTruthyStr]
    | some spv =>
      by_cases h : spv = "" <;>
        simp [sendMessagePayload, h, hasKey, jsTruthyStr]

/-- Claim C3 witness: the theorem instantiated at concrete inputs, with the
mode-mapping hypotheses discharged for each of the three cases. -/
theorem c3_sendMessage_witness :
    modeOf "standard" = "no_rag" ∧
    modeOf "compare" = "compare" ∧
    modeOf "rag" = "rag" ∧
    hasKey (sendMessagePayload "hi" "s1" (modeOf "rag") "default" none)
      "system_prompt" = jsTruthyStr none ∧
    hasKey (sendMessagePayload "hi" "s1" (modeOf "rag") "default" (some "be brief"))
      "system_prompt" = jsTruthyStr (some "be brief") := by
  refine ⟨?_, ?_, ?_, ?_, ?_⟩
  · exact (c3_sendMessage_mode_and_payload none "hi" "standard" "default" "r1" "s1"
      none none).2.2.2.1 rfl
  · exact (c3_sendMessage_mode_and_payload none "hi" "compare" "default" "r1" "s1"
      none none).2.2.2.2.1 rfl
  · exact (c3_sendMessage_mode_and_payload none "hi" "rag" "default" "r1" "s1"
      none none).2.2.2.2.2.1 (by decide) (by decide)
  · exact (c3_sendMessage_mode_and_payload none "hi" "rag" "default" "r1" "s1"
      none none).2.2.2.2.2.2.2.2.2.2.2
  · exact (c3_sendMessage_mode_and_payload none "hi" "rag" "default" "r1" "s1"
      none (some "be brief")).2.2.2.2.2.2.2.2.2.2.2

/-- Claim C4: runTests dispatches on the shape of testData in source order:
an object with a truthy prompt posts /test/single with the prompt and
expected_result defaulting to the empty string; a string without ".csv"
posts /test/single as test_file; a string containing ".csv" posts
/chat/batch-test as test_file with query param similarity_threshold 0.7;
anything else (null, other values, objects with a falsy prompt) posts
/test/single with no body. -/
theorem c4_runTests_dispatch (env : Option String) :
    (∀ p expected, p ≠ "" →
      runTestsRequest env (TestData.obj (some p) expected) =
        { client := api env, method := HttpMethod.post, url := "/test/single",
          params := [],
          body := some (Body.json [("prompt", JVal.str p),
            ("expected_result", JVal.str (jsOrStr expected ""))]),
          headers := [] }) ∧
    (∀ s, jsIncludes s ".csv" = false →
      runTestsRequest env (TestData.str s) =
        { client := api env, method := HttpMethod.post, url := "/test/single",
          params := [], body := some (Body.json [("test_file", JVal.str s)]),
          headers := [] }) ∧
    (∀ s, jsIncludes s ".csv" = true →
      runTestsRequest env (TestData.str s) =
        { client := api env, method := HttpMethod.post, url := "/chat/batch-test",
          params := [("similarity_threshold", JVal.num (7/10))],
          body := some (Body.json [("test_file", JVal.str s)]), headers := [] }) ∧
    runTestsRequest env TestData.null = defaultTestRequest env ∧
    runTestsRequest env TestData.other = defaultTestRequest env ∧
    (∀ expected, runTestsRequest env (TestData.obj none expected)
      = defaultTestRequest env) ∧
    (∀ expected, runTestsRequest env (TestData.obj (some "") expected)
      = defaultTestRequest env) ∧
    defaultTestRequest env
      = { client := api env, method := HttpMethod.post, url := "/test/single",
          params := [], body := none, headers := [] } ∧
    (∀ td, (@chatApi.runTests Unit Unit env td).request = runTestsRequest env td) := by
  refine ⟨?_, ?_, ?_, rfl, rfl, fun _ => rfl, ?_, rfl, fun _ => rfl⟩
  · intro p expected hp; simp [runTestsRequest, hp]
  · intro s h; simp [runTestsRequest, h]
  · intro s h; simp [runTestsRequest, h]
  · intro expected; simp [runTestsRequest]

/-- Claim C4 witness: the dispatch theorem applied at a truthy-prompt
object, a non-csv string and a csv string. -/
theorem c4_runTests_witness :
    runTestsRequest none (TestData.obj (some "What is RAG?") none) =
      { client := api none, method := HttpMethod.post, url := "/test/single",
        params := [],
        body := some (Body.json [("prompt", JVal.str "What is RAG?"),
          ("expected_result", JVal.str "")]), headers := [] } ∧
    runTestsRequest none (TestData.str "single-case") =
      { client := api none, method := HttpMethod.post, url := "/test/single",
        params := [],
        body := some (Body.json [("test_file", JVal.str "single-case")]),
        headers := [] } ∧
    runTestsRequest none (TestData.str "tests.csv") =
      { client := api none, method := HttpMethod.post, url := "/chat/batch-test",
        params := [("similarity_threshold", JVal.num (7/10))],
        body := some (Body.json [("test_file", JVal.str "tests.csv")]),
        headers := [] } := by
  refine ⟨?_, ?_, ?_⟩
  · exact (c4_runTests_dispatch none).1 "What is RAG?" none (by decide)
  · exact (c4_runTests_dispatch none).2.1 "single-case" (by decide)
  · exact (c4_runTests_dispatch none).2.2.1 "tests.csv" (by decide)

/-- Claim C10: clearCache sends the older_than_days query parameter exactly
when olderThanDays is truthy; clearCache(0) issues a DELETE of /chat/cache
with no params, identical to clearCache(null). -/
theorem c10_clearCache_truthy (env : Option String) :
    (∀ o, (@indexApi.clearCache Unit Unit env o).request.method
        = HttpMethod.delete ∧
      (@indexApi.clearCache Unit Unit env o).request.url = "/chat/cache") ∧
    (@indexApi.clearCache Unit Unit env (some 0)).request
      = (@indexApi.clearCache Unit Unit env none).request ∧
    (@indexApi.clearCache Unit Unit env (some 0)).request.params = [] ∧
    (@indexApi.clearCache Unit Unit env none).request.params = [] ∧
    (∀ q : Rat, q ≠ 0 →
      (@indexApi.clearCache Unit Unit env (some q)).request.params
        = [("older_than_days", JVal.num q)]) ∧
    (∀ o, ((@indexApi.clearCache Unit Unit env o).request.params = [] ↔
      jsTruthyNum o = false)) := by
  refine ⟨fun o => ⟨rfl, rfl⟩, ?_, ?_, rfl, ?_, ?_⟩
  · simp [indexApi.clearCache, jsTruthyNum]
  · simp [indexApi.clearCache, jsTruthyNum]
  · intro q hq
    simp [indexApi.clearCache, jsTruthyNum, jsOrNum, hq]
  · intro o
    cases o with
    | none => simp [indexApi.clearCache, jsTruthyNum]
    | some q =>
      by_cases hq : q = 0 <;> simp [indexApi.clearCache, jsTruthyNum, hq]

/-- Claim C10 witness: the theorem applied with the nonzero hypothesis
discharged at 30 days. -/
theorem c10_clearCache_witness :
    (@indexApi.clearCache Unit Unit none (some 30)).request.params
      = [("older_than_days", JVal.num 30)] ∧
    (@indexApi.clearCache Unit Unit none (some 0)).request
      = (@indexApi.clearCache Unit Unit none none).request := by
  exact ⟨(c10_clearCache_truthy none).2.2.2.2.1 30 (by norm_num),
    (c10_clearCache_truthy none).2.1⟩

/-- Claim C7: every facade method except sendMessage returns the backend's
response data unchanged on success, with an empty error log; sendMessage
alone returns the response data merged with a session_id field, leaving
every other key of the opaque data untouched. -/
theorem c7_pass_through (e a : Type) (env : Option String)
    (message responseMode promptStyle randSuffix file jobId documentId : String)
    (sessionId systemPrompt folderId shopifyDomain : Option String)
    (testData : TestData) (threshold : Rat) (olderThanDays : Option Rat)
    (recursive enhancedSlides : Bool) (d : a) (data : List (String × JVal)) :
    (@chatApi.sendMessage Unit env message responseMode sessionId systemPrompt
        promptStyle randSuffix).run (Except.ok (Response.mk data))
      = ([], Except.ok (data ++ [("session_id",
          JVal.str (jsOrStr sessionId ("session_" ++ randSuffix)))])) ∧
    (∀ k, k ≠ "session_id" →
      jsGet (data ++ [("session_id",
          JVal.str (jsOrStr sessionId ("session_" ++ randSuffix)))]) k
        = jsGet data k) ∧
    (@chatApi.runTests e a env testData).run (Except.ok (Response.mk d))
      = ([], Except.ok d) ∧
    (@chatApi.startBatchTest e a env file threshold).run
        (Except.ok (Response.mk d)) = ([], Except.ok d) ∧
    (@chatApi.getTestJobStatus e a env jobId).run (Except.ok (Response.mk d))
      = ([], Except.ok d) ∧
    (@chatApi.getAllTestJobs e a env).run (Except.ok (Response.mk d))
      = ([], Except.ok d) ∧
    (@indexApi.clearCache e a env olderThanDays).run (Except.ok (Response.mk d))
      = ([], Except.ok d) ∧
    (@indexApi.getCacheStats e a env).run (Except.ok (Response.mk d))
      = ([], Except.ok d) ∧
    (@indexApi.indexGoogleDrive e a env folderId recursive enhancedSlides).run
        (Except.ok (Response.mk d)) = ([], Except.ok d) ∧
    (@indexApi.listGoogleDriveFiles e a env).run (Except.ok (Response.mk d))
      = ([], Except.ok d) ∧
    (@indexApi.indexShopify e a env shopifyDomain).run (Except.ok (Response.mk d))
      = ([], Except.ok d) ∧
    (@indexApi.listShopifyContent e a env).run (Except.ok (Response.mk d))
      = ([], Except.ok d) ∧
    (@indexApi.deleteDocument e a env documentId).run (Except.ok (Response.mk d))
      = ([], Except.ok d) ∧
    (@indexApi.healthCheck e a env).run (Except.ok (Response.mk d))
      = ([], Except.ok d) := by
  refine ⟨rfl, ?_, rfl, rfl, rfl, rfl, rfl, rfl, rfl, rfl, rfl, rfl, rfl, rfl⟩
  intro k hk
  rw [jsGet_append, if_neg (fun h => hk h.symm)]

/-- Claim C7 witness: the sendMessage frame condition applied at a concrete
response object and the key "answer". -/
theorem c7_pass_through_witness :
    jsGet ([("answer", JVal.str "42"), ("session_id", JVal.str "backend")] ++
        [("session_id", JVal.str (jsOrStr none ("session_" ++ "abc")))]) "answer"
      = jsGet [("answer", JVal.str "42"), ("session_id", JVal.str "backend")]
          "answer" := by
  exact (c7_pass_through Unit Unit none "hi" "rag" "default" "abc" "f" "j" "d"
    none none none none TestData.null (7/10) none true false ()
    [("answer", JVal.str "42"), ("session_id", JVal.str "backend")]).2.1
    "answer" (by decide)

/-- Claim C9: the session_id field of the object returned by sendMessage is
the client-side session id (the sessionId argument when a truthy one is
provided, otherwise a freshly generated string beginning with "session_"),
and because it is appended after the spread of response.data it overrides
any session_id field the backend sent. -/
theorem c9_session_id_overrides (env : Option String)
    (message responseMode promptStyle randSuffix : String)
    (sessionId systemPrompt : Option String) (data : List (String × JVal)) :
    ((@chatApi.sendMessage Unit env message responseMode sessionId systemPrompt
        promptStyle randSuffix).run (Except.ok (Response.mk data))).2
      = Except.ok (data ++ [("session_id",
          JVal.str (jsOrStr sessionId ("session_" ++ randSuffix)))]) ∧
    jsGet (data ++ [("session_id",
        JVal.str (jsOrStr sessionId ("session_" ++ randSuffix)))]) "session_id"
      = some (JVal.str (jsOrStr sessionId ("session_" ++ randSuffix))) ∧
    (∀ s, sessionId = some s → s ≠ "" →
      jsOrStr sessionId ("session_" ++ randSuffix) = s) ∧
    (jsTruthyStr sessionId = false →
      ∃ suffix, jsOrStr sessionId ("session_" ++ randSuffix)
        = "session_" ++ suffix) := by
  refine ⟨rfl, ?_, ?_, ?_⟩
  · rw [jsGet_append, if_pos rfl]
  · intro s hs hne
    subst hs
    simp [jsOrStr, hne]
  · intro h
    refine ⟨randSuffix, ?_⟩
    cases sessionId with
    | none => rfl
    | some s =>
      have hs : s = "" := by simpa [jsTruthyStr] using h
      simp [jsOrStr, hs]

/-- Claim C9 witness: the theorem applied with a truthy provided session id
(returned as is and overriding the backend's field) and with no session id
(generated id beginning with "session_"). -/
theorem c9_session_id_witness :
    jsOrStr (some "sess-7") ("session_" ++ "abc") = "sess-7" ∧
    (∃ suffix, jsOrStr none ("session_" ++ "abc") = "session_" ++ suffix) ∧
    jsGet ([("session_id", JVal.str "backend")] ++
        [("session_id", JVal.str (jsOrStr (some "sess-7") ("session_" ++ "abc")))])
      "session_id"
      = some (JVal.str (jsOrStr (some "sess-7") ("session_" ++ "abc"))) := by
  refine ⟨?_, ?_, ?_⟩
  · exact (c9_session_id_overrides none "hi" "rag" "default" "abc" (some "sess-7")
      none []).2.2.1 "sess-7" rfl (by decide)
  · exact (c9_session_id_overrides none "hi" "rag" "default" "abc" none
      none []).2.2.2 rfl
  · exact (c9_session_id_overrides none "hi" "rag" "default" "abc" (some "sess-7")
      none [("session_id", JVal.str "backend")]).2.1

/-- Claim C1: while a poll interval is active and a job id is tracked, a
received status response tears the poll down (interval cleared and start
button re-enabled) if and only if the response's status field is
"completed" or "failed"; on any other status both the interval and the
button state are unchanged and polling continues. -/
theorem c1_poll_teardown_iff_terminal (s : UIState) (p st : Nat) (stx : String)
    (j : JobData) (hjob : jsTruthyStr s.jobId = true)
    (hpoll : s.pollInterval = some p) :
    (((checkJobStatus s (PollOutcome.httpResponse true st stx j)).pollInterval
          = none ∧
      (checkJobStatus s (PollOutcome.httpResponse true st stx j)).startDisabled
          = false) ↔
      (j.status = some "completed" ∨ j.status = some "failed")) ∧
    (j.status ≠ some "completed" → j.status ≠ some "failed" →
      (checkJobStatus s (PollOutcome.httpResponse true st stx j)).pollInterval
          = s.pollInterval ∧
      (checkJobStatus s (PollOutcome.httpResponse true st stx j)).startDisabled
          = s.startDisabled) := by
  by_cases hc : j.status = some "completed"
  · cases hp : j.progress <;>
      simp [checkJobStatus, hjob, hc, hp]
  · by_cases hf : j.status = some "failed"
    · cases hp : j.progress <;>
        simp [checkJobStatus, hjob, hc, hf, hp]
    · cases hp : j.progress <;>
        simp [checkJobStatus, hjob, hc, hf, hp, hpoll]

/-- Claim C1 witness: the teardown equivalence applied at a concrete active
state, once with a completed status (interval cleared, button re-enabled)
and once with a running status (both unchanged). -/
theorem c1_poll_teardown_witness :
    ((checkJobStatus
        { jobId := some "job-1", pollInterval := some 5000, startDisabled := true,
          progressVisible := true, progressWidth := "0%", statusText := "",
          resultHtml := "", logs := [] }
        (PollOutcome.httpResponse true 200 "OK"
          { progress := some 100, status := some "completed", message := none,
            result := none, duration_seconds := none,
            errorMessage := none })).pollInterval = none ∧
     (checkJobStatus
        { jobId := some "job-1", pollInterval := some 5000, startDisabled := true,
          progressVisible := true, progressWidth := "0%", statusText := "",
          resultHtml := "", logs := [] }
        (PollOutcome.httpResponse true 200 "OK"
          { progress := some 100, status := some "completed", message := none,
            result := none, duration_seconds := none,
            errorMessage := none })).startDisabled = false) ∧
    ((checkJobStatus
        { jobId := some "job-1", pollInterval := some 5000, startDisabled := true,
          progressVisible := true, progressWidth := "0%", statusText := "",
          resultHtml := "", logs := [] }
        (PollOutcome.httpResponse true 200 "OK"
          { progress := some 40, status := some "running", message := none,
            result := none, duration_seconds := none,
            errorMessage := none })).pollInterval = some 5000 ∧
     (checkJobStatus
        { jobId := some "job-1", pollInterval := some 5000, startDisabled := true,
          progressVisible := true, progressWidth := "0%", statusText := "",
          resultHtml := "", logs := [] }
        (PollOutcome.httpResponse true 200 "OK"
          { progress := some 40, status := some "running", message := none,
            result := none, duration_seconds := none,
            errorMessage := none })).startDisabled = true) := by
  refine ⟨?_, ?_⟩
  · exact (c1_poll_teardown_iff_terminal
      { jobId := some "job-1", pollInterval := some 5000, startDisabled := true,
        progressVisible := true, progressWidth := "0%", statusText := "",
        resultHtml := "", logs := [] } 5000 200 "OK"
      { progress := some 100, status := some "completed", message := none,
        result := none, duration_seconds := none, errorMessage := none }
      (by decide) rfl).1.mpr (Or.inl rfl)
  · exact (c1_poll_teardown_iff_terminal
      { jobId := some "job-1", pollInterval := some 5000, startDisabled := true,
        progressVisible := true, progressWidth := "0%", statusText := "",
        resultHtml := "", logs := [] } 5000 200 "OK"
      { progress := some 40, status := some "running", message := none,
        result := none, duration_seconds := none, errorMessage := none }
      (by decide) rfl).2 (by decide) (by decide)

/-- Claim C5: a successfully started batch job schedules the status check
with the constant period 5000 ms, and the only transition in the poll loop
that changes the scheduled interval is the terminal-status teardown: if a
tick changes pollInterval at all, the outcome was an ok response whose
status is "completed" or "failed" and the interval is now cleared. -/
theorem c5_fixed_interval_and_teardown :
    (∀ (s : UIState) (files : List String) (st : Nat) (stx : String)
        (jid : Option String), files ≠ [] →
      (startButtonClick s files
        (StartOutcome.httpResponse true st stx jid)).pollInterval = some 5000) ∧
    (∀ (s : UIState) (o : PollOutcome),
      (checkJobStatus s o).pollInterval ≠ s.pollInterval →
      ∃ st stx j, o = PollOutcome.httpResponse true st stx j ∧
        (j.status = some "completed" ∨ j.status = some "failed") ∧
        (checkJobStatus s o).pollInterval = none) := by
  refine ⟨?_, ?_⟩
  · intro s files st stx jid hne
    cases files with
    | nil => exact absurd rfl hne
    | cons f fs => simp [startButtonClick]
  · intro s o h
    by_cases hjob : jsTruthyStr s.jobId = true
    · cases o with
      | fetchError msg => simp [checkJobStatus, hjob] at h
      | httpResponse ok st stx j =>
        cases ok with
        | false => simp [checkJobStatus, hjob] at h
        | true =>
          by_cases hc : j.status = some "completed"
          · refine ⟨st, stx, j, rfl, Or.inl hc, ?_⟩
            cases hp : j.progress <;> simp [checkJobStatus, hjob, hc, hp]
          · by_cases hf : j.status = some "failed"
            · refine ⟨st, stx, j, rfl, Or.inr hf, ?_⟩
              cases hp : j.progress <;> simp [checkJobStatus, hjob, hc, hf, hp]
            · exfalso
              apply h
              cases hp : j.progress <;>
                simp [checkJobStatus, hjob, hc, hf, hp]
    · have hjob2 : jsTruthyStr s.jobId = false := by
        cases hb : jsTruthyStr s.jobId
        · rfl
        · exact absurd hb hjob
      simp [checkJobStatus, hjob2] at h

/-- Claim C5 witness: the theorem applied at a concrete click with a file
selected, and at a concrete polling state where a completed response
clears the interval. -/
theorem c5_fixed_interval_witness :
    (startButtonClick
        { jobId := none, pollInterval := none, startDisabled := false,
          progressVisible := false, progressWidth := "", statusText := "",
          resultHtml := "", logs := [] }
        ["tests.csv"]
        (StartOutcome.httpResponse true 200 "OK" (some "job-9"))).pollInterval
      = some 5000 ∧
    (checkJobStatus
        { jobId := some "job-1", pollInterval := some 5000, startDisabled := true,
          progressVisible := true, progressWidth := "0%", statusText := "",
          resultHtml := "", logs := [] }
        (PollOutcome.httpResponse true 200 "OK"
          { progress := none, status := some "completed", message := none,
            result := none, duration_seconds := none,
            errorMessage := none })).pollInterval = none := by
  refine ⟨?_, ?_⟩
  · exact c5_fixed_interval_and_teardown.1
      { jobId := none, pollInterval := none, startDisabled := false,
        progressVisible := false, progressWidth := "", statusText := "",
        resultHtml := "", logs := [] }
      ["tests.csv"] 200 "OK" (some "job-9") (by decide)
  · obtain ⟨st, stx, j, _, _, hnone⟩ := c5_fixed_interval_and_teardown.2
      { jobId := some "job-1", pollInterval := some 5000, startDisabled := true,
        progressVisible := true, progressWidth := "0%", statusText := "",
        resultHtml := "", logs := [] }
      (PollOutcome.httpResponse true 200 "OK"
        { progress := none, status := some "completed", message := none,
          result := none, duration_seconds := none, errorMessage := none })
      (by decide)
    exact hnone

/-- Claim C8: an error while polling (a failed fetch, or a non-ok HTTP
response which the script turns into a thrown error) is logged and shown
in the status element, but leaves the poll interval and the start button
untouched, so polling continues at the next tick. -/
theorem c8_poll_error_keeps_polling (s : UIState) (msg stx : String) (st : Nat)
    (j : JobData) (hjob : jsTruthyStr s.jobId = true) :
    ((checkJobStatus s (PollOutcome.fetchError msg)).pollInterval
        = s.pollInterval ∧
     (checkJobStatus s (PollOutcome.fetchError msg)).startDisabled
        = s.startDisabled ∧
     (checkJobStatus s (PollOutcome.fetchError msg)).logs
        = s.logs ++ [("Error checking job status:", msg)] ∧
     (checkJobStatus s (PollOutcome.fetchError msg)).statusText
        = "Error checking status: " ++ msg) ∧
    ((checkJobStatus s (PollOutcome.httpResponse false st stx j)).pollInterval
        = s.pollInterval ∧
     (checkJobStatus s (PollOutcome.httpResponse false st stx j)).startDisabled
        = s.startDisabled ∧
     (checkJobStatus s (PollOutcome.httpResponse false st stx j)).logs
        = s.logs ++ [("Error checking job status:",
            "Error checking job: " ++ toString st ++ " " ++ stx)] ∧
     (checkJobStatus s (PollOutcome.httpResponse false st stx j)).statusText
        = "Error checking status: " ++
            ("Error checking job: " ++ toString st ++ " " ++ stx)) := by
  refine ⟨?_, ?_⟩ <;> simp [checkJobStatus, hjob]

/-- Claim C8 witness: the theorem applied at a concrete polling state for a
network error, showing the interval and button are untouched while the
error is logged. -/
theorem c8_poll_error_witness :
    (checkJobStatus
        { jobId := some "job-1", pollInterval := some 5000, startDisabled := true,
          progressVisible := true, progressWidth := "0%", statusText := "",
          resultHtml := "", logs := [] }
        (PollOutcome.fetchError "Failed to fetch")).pollInterval = some 5000 ∧
    (checkJobStatus
        { jobId := some "job-1", pollInterval := some 5000, startDisabled := true,
          progressVisible := true, progressWidth := "0%", statusText := "",
          resultHtml := "", logs := [] }
        (PollOutcome.fetchError "Failed to fetch")).startDisabled = true ∧
    (checkJobStatus
        { jobId := some "job-1", pollInterval := some 5000, startDisabled := true,
          progressVisible := true, progressWidth := "0%", statusText := "",
          resultHtml := "", logs := [] }
        (PollOutcome.fetchError "Failed to fetch")).logs
      = [("Error checking job status:", "Failed to fetch")] := by
  obtain ⟨⟨h1, h2, h3, h4⟩, h5⟩ := c8_poll_error_keeps_polling
    { jobId := some "job-1", pollInterval := some 5000, startDisabled := true,
      progressVisible := true, progressWidth := "0%", statusText := "",
      resultHtml := "", logs := [] }
    "Failed to fetch" "Server Error" 500
    { progress := none, status := none, message := none, result := none,
      duration_seconds := none, errorMessage := none } (by decide)
  exact ⟨h1, h2, h3⟩
